import Mathlib

/-!
Verification of the formbricks server-side data-access layer.

This file gives a shallow embedding of the webhook / attribute-class
authorization checks and of the action service (list, create, count and
occurrence queries), together with the cache-key / cache-tag configuration
each cached operation passes to the framework cache.  Dates are modelled as
integers (milliseconds since the epoch), the database as explicit lists of
rows, and fallible operations return `Except`.
-/

namespace Formbricks

deriving instance DecidableEq for Except

/-- Errors surfaced by the service layer: Zod validation failures, Prisma
known request errors, the service-level DatabaseError wrapper, and any
other thrown value. -/
inductive Err where
  | validationError : String → Err
  | prismaKnownRequestError : String → Err
  | databaseError : String → Err
  | otherError : String → Err
deriving Repr, DecidableEq

/-- A webhook row: only the fields the authorization check reads. -/
structure Webhook where
  id : String
  environmentId : String
deriving Repr, DecidableEq

/-- An attribute-class row: only the fields the authorization check reads. -/
structure AttributeClass where
  id : String
  environmentId : String
deriving Repr, DecidableEq

/-- An action-class row (id, environmentId, name, type). -/
structure ActionClass where
  id : String
  environmentId : String
  name : String
  type : String
deriving Repr, DecidableEq

/-- A person row; actions connect to a person through the composite key
(environmentId, userId). -/
structure PersonRec where
  id : String
  environmentId : String
  userId : String
deriving Repr, DecidableEq

/-- An action row as stored by Prisma; createdAt is epoch milliseconds and
actionClassId is the foreign key into the action classes. -/
structure ActionRecord where
  id : String
  createdAt : Int
  personId : String
  properties : String
  actionClassId : String
deriving Repr, DecidableEq

/-- The shaped TAction the service returns: the row fields plus the included
actionClass relation (an Option because the join is a lookup in the model). -/
structure TAction where
  id : String
  createdAt : Int
  personId : String
  properties : String
  actionClass : Option ActionClass
deriving Repr, DecidableEq

/-- The input of createAction (the ZActionInput fields the service reads). -/
structure TActionInput where
  environmentId : String
  userId : String
  name : String
deriving Repr, DecidableEq

/-- The database state, plus the clock (now, in epoch milliseconds) and an
optional injected fault: when dbFault is set, every Prisma call throws that
error, which lets the catch blocks of the service be exercised. -/
structure DB where
  now : Int
  actions : List ActionRecord
  actionClasses : List ActionClass
  webhooks : List Webhook
  attributeClasses : List AttributeClass
  persons : List PersonRec
  envAccess : List (String × String)
  monthlyActivePersons : List String
  dbFault : Option Err
deriving Repr, DecidableEq

/-- Database operations performed by a service call, used to state that a
failed validation touches the database not at all. -/
inductive DbOp where
  | query : DbOp
  | write : DbOp
deriving Repr, DecidableEq

/-- Cache tags revalidated by writes: the action cache tags keyed by
environment and by person, the active-person cache tag, and the
action-class cache tag revalidated by the createActionClass write. -/
inductive Tag where
  | actionsByEnvironmentId : String → Tag
  | actionsByPersonId : String → Tag
  | activePersonById : String → Tag
  | actionClassById : String → Tag
deriving Repr, DecidableEq

/-- Modelled from the spec: the Zod schema ZId (imported from
types/environment, not under src) accepts cuid-style identifiers; it is
modelled as a nonempty string of alphanumeric characters.  In particular a
valid id never contains a hyphen, the separator of the cache keys. -/
def isValidId (s : String) : Bool :=
  decide (0 < s.length) && s.data.all (fun c => c.isAlphanum)

/-- Modelled from the spec: ZActionInput (types/actions, not under src)
requires a valid environment id and nonempty userId and name. -/
def validActionInput (d : TActionInput) : Bool :=
  isValidId d.environmentId && decide (0 < d.userId.length) && decide (0 < d.name.length)

/-- Modelled from the spec: getWebhook (webhook/service, not under src) looks
a webhook up by id and returns null when none exists. -/
def getWebhook (db : DB) (webhookId : String) : Option Webhook :=
  db.webhooks.find? (fun w => w.id == webhookId)

/-- Modelled from the spec: getAttributeClass (attributeClass/service, not
under src) looks an attribute class up by id. -/
def getAttributeClass (db : DB) (attributeClassId : String) : Option AttributeClass :=
  db.attributeClasses.find? (fun c => c.id == attributeClassId)

/-- Modelled from the spec: hasUserEnvironmentAccess (environment/auth, not
under src) decides whether a user may access an environment; modelled as
membership in an explicit access relation. -/
def hasUserEnvironmentAccess (db : DB) (userId environmentId : String) : Bool :=
  db.envAccess.contains (userId, environmentId)

/-- canUserAccessWebhook: validate both ids, look the webhook up, return
false when it does not exist or the user lacks access to its environment,
true otherwise.  The catch block of the source rethrows unchanged. -/
def canUserAccessWebhook (db : DB) (userId webhookId : String) : Except Err Bool :=
  if !(isValidId userId && isValidId webhookId) then
    .error (.validationError "Validation failed")
  else
    match getWebhook db webhookId with
    | none => .ok false
    | some webhook =>
      if !(hasUserEnvironmentAccess db userId webhook.environmentId) then .ok false
      else .ok true

/-- canUserAccessAttributeClass: validate both ids, return false on a falsy
userId, look the attribute class up, return false when it does not exist or
the user lacks access to its environment, true otherwise. -/
def canUserAccessAttributeClass (db : DB) (userId attributeClassId : String) : Except Err Bool :=
  if !(isValidId userId && isValidId attributeClassId) then
    .error (.validationError "Validation failed")
  else if userId.length == 0 then .ok false
  else
    match getAttributeClass db attributeClassId with
    | none => .ok false
    | some attributeClass =>
      if !(hasUserEnvironmentAccess db userId attributeClass.environmentId) then .ok false
      else .ok true

/-- Modelled from the spec: ITEMS_PER_PAGE is imported from ../constants,
which is not under src; no claim depends on its numeric value. -/
def ITEMS_PER_PAGE : Nat := 50

/-- Modelled from the spec: SERVICES_REVALIDATION_INTERVAL is imported from
../constants, which is not under src; no claim depends on its value. -/
def SERVICES_REVALIDATION_INTERVAL : Nat := 1800

/-- The catch block shared by getActionsByPersonId, getActionsByEnvironmentId
and createAction: a Prisma known request error becomes
DatabaseError("Database operation failed"); every other error is rethrown
unchanged. -/
def actionServiceCatch (e : Err) : Err :=
  match e with
  | .prismaKnownRequestError _ => .databaseError "Database operation failed"
  | e => e

/-- The include of the actionClass relation: the action class row whose id
is the action's foreign key. -/
def includeActionClass (db : DB) (a : ActionRecord) : Option ActionClass :=
  db.actionClasses.find? (fun c => c.id == a.actionClassId)

/-- The shaping step of the list queries: pick id, createdAt, personId,
properties and the included actionClass into a TAction. -/
def toTAction (db : DB) (a : ActionRecord) : TAction :=
  ⟨a.id, a.createdAt, a.personId, a.properties, includeActionClass db a⟩

/-- Modelled from the spec: formatDateFields (utils/datetime, not under src)
re-deserializes the date fields after the cache layer; with dates modelled
as integers it is the identity on the shaped action. -/
def formatDateFields (a : TAction) : TAction := a

/-- The Prisma orderBy createdAt desc comparison. -/
def createdAtDesc (a b : ActionRecord) : Bool :=
  b.createdAt ≤ a.createdAt

/-- The Prisma orderBy createdAt asc comparison. -/
def createdAtAsc (a b : ActionRecord) : Bool :=
  a.createdAt ≤ b.createdAt

/-- Rows ordered by createdAt descending. -/
def sortByCreatedAtDesc (l : List ActionRecord) : List ActionRecord :=
  l.mergeSort createdAtDesc

/-- Rows ordered by createdAt ascending. -/
def sortByCreatedAtAsc (l : List ActionRecord) : List ActionRecord :=
  l.mergeSort createdAtAsc

/-- The take/skip pair of the list queries: when page is a nonzero number,
skip ITEMS_PER_PAGE * (page - 1) rows and take ITEMS_PER_PAGE; a missing or
zero (falsy) page disables both. -/
def paginate (l : List ActionRecord) (page : Option Nat) : List ActionRecord :=
  match page with
  | none => l
  | some p => if p ≠ 0 then (l.drop (ITEMS_PER_PAGE * (p - 1))).take ITEMS_PER_PAGE else l

/-- getActionsByPersonId: validate, findMany the person's actions ordered by
createdAt desc with take/skip and the actionClass include, shape each row,
then map formatDateFields over the cached result. -/
def getActionsByPersonId (db : DB) (personId : String) (page : Option Nat) :
    Except Err (List TAction) × List DbOp :=
  if !(isValidId personId) then (.error (.validationError "Validation failed"), [])
  else
    match db.dbFault with
    | some e => (.error (actionServiceCatch e), [.query])
    | none =>
      let rows := paginate (sortByCreatedAtDesc
        (db.actions.filter (fun a => a.personId == personId))) page
      (.ok ((rows.map (toTAction db)).map formatDateFields), [.query])

/-- The relation filter actionClass: environmentId of the environment list
query: the action's included action class lives in the given environment. -/
def actionInEnvironment (db : DB) (environmentId : String) (a : ActionRecord) : Bool :=
  match includeActionClass db a with
  | some c => c.environmentId == environmentId
  | none => false

/-- getActionsByEnvironmentId: validate, findMany the actions whose action
class belongs to the environment, ordered by createdAt desc with take/skip
and the include, shape each row, then map formatDateFields. -/
def getActionsByEnvironmentId (db : DB) (environmentId : String) (page : Option Nat) :
    Except Err (List TAction) × List DbOp :=
  if !(isValidId environmentId) then (.error (.validationError "Validation failed"), [])
  else
    match db.dbFault with
    | some e => (.error (actionServiceCatch e), [.query])
    | none =>
      let rows := paginate (sortByCreatedAtDesc
        (db.actions.filter (actionInEnvironment db environmentId))) page
      (.ok ((rows.map (toTAction db)).map formatDateFields), [.query])

/-- getActionCountInLastHour: validate, count the actions of the class whose
createdAt is at or after now minus one hour.  The catch block rethrows
unchanged. -/
def getActionCountInLastHour (db : DB) (actionClassId : String) :
    Except Err Nat × List DbOp :=
  if !(isValidId actionClassId) then (.error (.validationError "Validation failed"), [])
  else
    match db.dbFault with
    | some e => (.error e, [.query])
    | none =>
      (.ok (db.actions.filter (fun a =>
        a.actionClassId == actionClassId && db.now - 60 * 60 * 1000 ≤ a.createdAt)).length,
       [.query])

/-- getActionCountInLast24Hours: as the hourly count with a 24-hour cutoff. -/
def getActionCountInLast24Hours (db : DB) (actionClassId : String) :
    Except Err Nat × List DbOp :=
  if !(isValidId actionClassId) then (.error (.validationError "Validation failed"), [])
  else
    match db.dbFault with
    | some e => (.error e, [.query])
    | none =>
      (.ok (db.actions.filter (fun a =>
        a.actionClassId == actionClassId && db.now - 24 * 60 * 60 * 1000 ≤ a.createdAt)).length,
       [.query])

/-- getActionCountInLast7Days: as the hourly count with a 7-day cutoff. -/
def getActionCountInLast7Days (db : DB) (actionClassId : String) :
    Except Err Nat × List DbOp :=
  if !(isValidId actionClassId) then (.error (.validationError "Validation failed"), [])
  else
    match db.dbFault with
    | some e => (.error e, [.query])
    | none =>
      (.ok (db.actions.filter (fun a =>
        a.actionClassId == actionClassId && db.now - 7 * 24 * 60 * 60 * 1000 ≤ a.createdAt)).length,
       [.query])

/-- Modelled from the spec: getStartDateOfLastWeek (action/utils, not under
src) returns the start of the previous week, modelled on the integer
timeline as the start of the previous 7-day period. -/
def getStartDateOfLastWeek (now : Int) : Int :=
  (now / (7 * 24 * 60 * 60 * 1000) - 1) * (7 * 24 * 60 * 60 * 1000)

/-- Modelled from the spec: getStartDateOfLastMonth (action/utils, not under
src) returns the start of the previous month, modelled as the start of the
previous 30-day period. -/
def getStartDateOfLastMonth (now : Int) : Int :=
  (now / (30 * 24 * 60 * 60 * 1000) - 1) * (30 * 24 * 60 * 60 * 1000)

/-- Modelled from the spec: getStartDateOfLastQuarter (action/utils, not
under src) returns the start of the previous quarter, modelled as the start
of the previous 90-day period. -/
def getStartDateOfLastQuarter (now : Int) : Int :=
  (now / (90 * 24 * 60 * 60 * 1000) - 1) * (90 * 24 * 60 * 60 * 1000)

/-- The relation filter actionClass: id of the person-scoped queries: the
action's included action class has the given id. -/
def actionHasClass (db : DB) (actionClassId : String) (a : ActionRecord) : Bool :=
  match includeActionClass db a with
  | some c => c.id == actionClassId
  | none => false

/-- getActionCountInLastWeek: validate both ids, count the person's actions
of the class created at or after the start of the last week. -/
def getActionCountInLastWeek (db : DB) (actionClassId personId : String) :
    Except Err Nat × List DbOp :=
  if !(isValidId actionClassId && isValidId personId) then
    (.error (.validationError "Validation failed"), [])
  else
    match db.dbFault with
    | some e => (.error e, [.query])
    | none =>
      (.ok (db.actions.filter (fun a =>
        a.personId == personId && actionHasClass db actionClassId a &&
          getStartDateOfLastWeek db.now ≤ a.createdAt)).length,
       [.query])

/-- getActionCountInLastMonth: as the weekly count with the start of the
last month as cutoff. -/
def getActionCountInLastMonth (db : DB) (actionClassId personId : String) :
    Except Err Nat × List DbOp :=
  if !(isValidId actionClassId && isValidId personId) then
    (.error (.validationError "Validation failed"), [])
  else
    match db.dbFault with
    | some e => (.error e, [.query])
    | none =>
      (.ok (db.actions.filter (fun a =>
        a.personId == personId && actionHasClass db actionClassId a &&
          getStartDateOfLastMonth db.now ≤ a.createdAt)).length,
       [.query])

/-- getActionCountInLastQuarter: as the weekly count with the start of the
last quarter as cutoff. -/
def getActionCountInLastQuarter (db : DB) (actionClassId personId : String) :
    Except Err Nat × List DbOp :=
  if !(isValidId actionClassId && isValidId personId) then
    (.error (.validationError "Validation failed"), [])
  else
    match db.dbFault with
    | some e => (.error e, [.query])
    | none =>
      (.ok (db.actions.filter (fun a =>
        a.personId == personId && actionHasClass db actionClassId a &&
          getStartDateOfLastQuarter db.now ≤ a.createdAt)).length,
       [.query])

/-- getTotalOccurrencesForAction: validate both ids, count all of the
person's actions of the class. -/
def getTotalOccurrencesForAction (db : DB) (actionClassId personId : String) :
    Except Err Nat × List DbOp :=
  if !(isValidId actionClassId && isValidId personId) then
    (.error (.validationError "Validation failed"), [])
  else
    match db.dbFault with
    | some e => (.error e, [.query])
    | none =>
      (.ok (db.actions.filter (fun a =>
        a.personId == personId && actionHasClass db actionClassId a)).length,
       [.query])

/-- Modelled from the spec: date-fns differenceInDays returns the number of
full days between two dates; modelled as floor division of the millisecond
difference by the length of a day. -/
def differenceInDays (a b : Int) : Int :=
  (a - b) / (24 * 60 * 60 * 1000)

/-- getLastOccurrenceDaysAgo: validate both ids, findFirst the person's
actions of the class ordered by createdAt desc; null when there is none,
otherwise differenceInDays(now, createdAt of the latest). -/
def getLastOccurrenceDaysAgo (db : DB) (actionClassId personId : String) :
    Except Err (Option Int) × List DbOp :=
  if !(isValidId actionClassId && isValidId personId) then
    (.error (.validationError "Validation failed"), [])
  else
    match db.dbFault with
    | some e => (.error e, [.query])
    | none =>
      match (sortByCreatedAtDesc (db.actions.filter (fun a =>
          a.personId == personId && actionHasClass db actionClassId a))).head? with
      | none => (.ok none, [.query])
      | some lastEvent => (.ok (some (differenceInDays db.now lastEvent.createdAt)), [.query])

/-- getFirstOccurrenceDaysAgo: as getLastOccurrenceDaysAgo with the order
reversed (createdAt asc). -/
def getFirstOccurrenceDaysAgo (db : DB) (actionClassId personId : String) :
    Except Err (Option Int) × List DbOp :=
  if !(isValidId actionClassId && isValidId personId) then
    (.error (.validationError "Validation failed"), [])
  else
    match db.dbFault with
    | some e => (.error e, [.query])
    | none =>
      match (sortByCreatedAtAsc (db.actions.filter (fun a =>
          a.personId == personId && actionHasClass db actionClassId a))).head? with
      | none => (.ok none, [.query])
      | some firstEvent => (.ok (some (differenceInDays db.now firstEvent.createdAt)), [.query])

/-- Modelled from the spec: getActionClassByEnvironmentIdAndName
(actionClass/service, not under src) finds the action class of an
environment with a given name. -/
def getActionClassByEnvironmentIdAndName (db : DB) (environmentId name : String) :
    Option ActionClass :=
  db.actionClasses.find? (fun c => c.environmentId == environmentId && c.name == name)

/-- Modelled from the spec: the fresh id a createActionClass insert assigns,
modelled from the row count. -/
def freshActionClassId (db : DB) : String :=
  "actionClassRow" ++ toString db.actionClasses.length

/-- Modelled from the spec: the fresh id a prisma.action.create assigns,
modelled from the row count. -/
def freshActionId (db : DB) : String :=
  "actionRow" ++ toString db.actions.length

/-- Modelled from the spec: getIsPersonMonthlyActive (person/service, not
under src) reports whether the person counted as monthly active; modelled
as membership in an explicit list carried by the state. -/
def getIsPersonMonthlyActive (db : DB) (personId : String) : Bool :=
  db.monthlyActivePersons.contains personId

/-- The outcome of createAction: the returned value or error, the database
after the call, the cache tags revalidated, and the database operations
performed. -/
structure CreateActionResult where
  result : Except Err TAction
  db : DB
  revalidated : List Tag
  ops : List DbOp
deriving Repr, DecidableEq

/-- createAction: validate the input; pick the action type (automatic for
the two special names, code otherwise); reuse or create the action class of
(environmentId, name) — the nested createActionClass is not under src, and
per the spec's pattern (invalidate specific tags on writes) the modelled
write revalidates the cache tag of the action class it creates; then create
the action connected to the person of (environmentId, userId) — a missing
person makes the connect throw a Prisma known request error, which the
catch block maps to DatabaseError; then revalidate the active-person cache
when the person was not monthly active, revalidate the action cache for
the environment and the person, and return the shaped action. -/
def createAction (db : DB) (data : TActionInput) : CreateActionResult :=
  if !(validActionInput data) then
    ⟨.error (.validationError "Validation failed"), db, [], []⟩
  else
    match db.dbFault with
    | some e => ⟨.error (actionServiceCatch e), db, [], [.query]⟩
    | none =>
      let actionType : String :=
        if data.name == "Exit Intent (Desktop)" || data.name == "50% Scroll" then "automatic"
        else "code"
      let found := getActionClassByEnvironmentIdAndName db data.environmentId data.name
      let actionClass : ActionClass :=
        match found with
        | some c => c
        | none => ⟨freshActionClassId db, data.environmentId, data.name, actionType⟩
      let db1 : DB :=
        match found with
        | some _ => db
        | none => { db with actionClasses := db.actionClasses ++ [actionClass] }
      let ops1 : List DbOp :=
        match found with
        | some _ => [.query]
        | none => [.query, .write]
      let classTags : List Tag :=
        match found with
        | some _ => []
        | none => [.actionClassById actionClass.id]
      match db1.persons.find? (fun p =>
          p.environmentId == data.environmentId && p.userId == data.userId) with
      | none =>
        ⟨.error (actionServiceCatch (.prismaKnownRequestError "P2025")), db1, classTags,
          ops1 ++ [.write]⟩
      | some person =>
        let act : ActionRecord := ⟨freshActionId db1, db1.now, person.id, "", actionClass.id⟩
        let db2 : DB := { db1 with actions := db1.actions ++ [act] }
        let activeTags : List Tag :=
          if getIsPersonMonthlyActive db2 act.personId then [] else [.activePersonById act.personId]
        ⟨.ok ⟨act.id, act.createdAt, act.personId, act.properties, some actionClass⟩,
          db2,
          classTags ++ activeTags ++
            [.actionsByEnvironmentId data.environmentId, .actionsByPersonId act.personId],
          ops1 ++ [.write, .query]⟩

/-- The key list, tag list and revalidate interval a cached operation passes
to the framework cache (unstable_cache). -/
structure CacheConfig where
  keys : List String
  tags : List String
  revalidate : Nat
deriving Repr, DecidableEq

/-- Modelled from the spec: webhookCache.tag.byId (webhook/cache, not under
src) names the webhook entity by id. -/
def webhookTagById (webhookId : String) : String :=
  "webhooks-" ++ webhookId

/-- The attribute-class tag, written literally in the source as
attributeClasses- followed by the id. -/
def attributeClassTagById (attributeClassId : String) : String :=
  "attributeClasses-" ++ attributeClassId

/-- Modelled from the spec: actionClassCache.tag.byId (actionClass/cache,
not under src) names the action-class entity by id. -/
def actionClassTagById (actionClassId : String) : String :=
  "actionClasses-" ++ actionClassId

/-- Modelled from the spec: actionCache.tag.byPersonId (action/cache, not
under src) names the person whose actions a query reads. -/
def actionTagByPersonId (personId : String) : String :=
  "actions-person-" ++ personId

/-- Modelled from the spec: actionCache.tag.byEnvironmentId (action/cache,
not under src) names the environment whose actions a query reads. -/
def actionTagByEnvironmentId (environmentId : String) : String :=
  "actions-environment-" ++ environmentId

/-- JS template interpolation of the optional page number: a missing page
prints as the string undefined. -/
def pageToString (page : Option Nat) : String :=
  match page with
  | none => "undefined"
  | some p => toString p

/-- The cache configuration of canUserAccessWebhook. -/
def canUserAccessWebhookCacheConfig (userId webhookId : String) : CacheConfig :=
  ⟨["canUserAccessWebhook-" ++ userId ++ "-" ++ webhookId],
   [webhookTagById webhookId], SERVICES_REVALIDATION_INTERVAL⟩

/-- The cache configuration of canUserAccessAttributeClass. -/
def canUserAccessAttributeClassCacheConfig (userId attributeClassId : String) : CacheConfig :=
  ⟨["canUserAccessAttributeClass-" ++ userId ++ "-" ++ attributeClassId],
   [attributeClassTagById attributeClassId], SERVICES_REVALIDATION_INTERVAL⟩

/-- The cache configuration of getActionsByPersonId. -/
def getActionsByPersonIdCacheConfig (personId : String) (page : Option Nat) : CacheConfig :=
  ⟨["getActionsByPersonId-" ++ personId ++ "-" ++ pageToString page],
   [actionTagByPersonId personId], SERVICES_REVALIDATION_INTERVAL⟩

/-- The cache configuration of getActionsByEnvironmentId. -/
def getActionsByEnvironmentIdCacheConfig (environmentId : String) (page : Option Nat) :
    CacheConfig :=
  ⟨["getActionsByEnvironmentId-" ++ environmentId ++ "-" ++ pageToString page],
   [actionTagByEnvironmentId environmentId], SERVICES_REVALIDATION_INTERVAL⟩

/-- The cache configuration of getActionCountInLastHour. -/
def getActionCountInLastHourCacheConfig (actionClassId : String) : CacheConfig :=
  ⟨["getActionCountInLastHour-" ++ actionClassId],
   [actionClassTagById actionClassId], SERVICES_REVALIDATION_INTERVAL⟩

/-- The cache configuration of getActionCountInLast24Hours. -/
def getActionCountInLast24HoursCacheConfig (actionClassId : String) : CacheConfig :=
  ⟨["getActionCountInLast24Hours-" ++ actionClassId],
   [actionClassTagById actionClassId], SERVICES_REVALIDATION_INTERVAL⟩

/-- The cache configuration of getActionCountInLast7Days. -/
def getActionCountInLast7DaysCacheConfig (actionClassId : String) : CacheConfig :=
  ⟨["getActionCountInLast7Days-" ++ actionClassId],
   [actionClassTagById actionClassId], SERVICES_REVALIDATION_INTERVAL⟩

/-- The cache configuration of getActionCountInLastWeek. -/
def getActionCountInLastWeekCacheConfig (actionClassId personId : String) : CacheConfig :=
  ⟨["getActionCountInLastWeek-" ++ actionClassId ++ "-" ++ personId],
   [actionClassTagById actionClassId], SERVICES_REVALIDATION_INTERVAL⟩

/-- The cache configuration of getActionCountInLastMonth. -/
def getActionCountInLastMonthCacheConfig (actionClassId personId : String) : CacheConfig :=
  ⟨["getActionCountInLastMonth-" ++ actionClassId ++ "-" ++ personId],
   [actionClassTagById actionClassId], SERVICES_REVALIDATION_INTERVAL⟩

/-- The cache configuration of getActionCountInLastQuarter. -/
def getActionCountInLastQuarterCacheConfig (actionClassId personId : String) : CacheConfig :=
  ⟨["getActionCountInLastQuarter-" ++ actionClassId ++ "-" ++ personId],
   [actionClassTagById actionClassId], SERVICES_REVALIDATION_INTERVAL⟩

/-- The cache configuration of getTotalOccurrencesForAction. -/
def getTotalOccurrencesForActionCacheConfig (actionClassId personId : String) : CacheConfig :=
  ⟨["getTotalOccurrencesForAction-" ++ actionClassId ++ "-" ++ personId],
   [actionClassTagById actionClassId], SERVICES_REVALIDATION_INTERVAL⟩

/-- The cache configuration of getLastOccurrenceDaysAgo. -/
def getLastOccurrenceDaysAgoCacheConfig (actionClassId personId : String) : CacheConfig :=
  ⟨["getLastOccurrenceDaysAgo-" ++ actionClassId ++ "-" ++ personId],
   [actionClassTagById actionClassId], SERVICES_REVALIDATION_INTERVAL⟩

/-- The cache configuration of getFirstOccurrenceDaysAgo. -/
def getFirstOccurrenceDaysAgoCacheConfig (actionClassId personId : String) : CacheConfig :=
  ⟨["getFirstOccurrenceDaysAgo-" ++ actionClassId ++ "-" ++ personId],
   [actionClassTagById actionClassId], SERVICES_REVALIDATION_INTERVAL⟩

/-- The cache configuration of sendFreeLimitReachedEventToPosthogBiWeekly:
the key embeds the plan and the environment id, the revalidate interval is
15 days, and the options carry no tags entry at all. -/
def sendFreeLimitReachedEventToPosthogBiWeeklyCacheConfig (environmentId plan : String) :
    CacheConfig :=
  ⟨["sendFreeLimitReachedEventToPosthogBiWeekly-" ++ plan ++ "-" ++ environmentId],
   [], 60 * 60 * 24 * 15⟩

/-- Specification-side count, following the claim text: the number of
actions with the given actionClassId whose createdAt is at or after the
cutoff. -/
def specCountOfClassSince (db : DB) (actionClassId : String) (cutoff : Int) : Nat :=
  (db.actions.filter (fun a =>
    a.actionClassId == actionClassId && cutoff ≤ a.createdAt)).length

/-- Specification-side count, following the claim text: the number of the
person's actions of the given class whose createdAt is at or after the
cutoff. -/
def specCountOfPersonClassSince (db : DB) (actionClassId personId : String) (cutoff : Int) :
    Nat :=
  (db.actions.filter (fun a =>
    a.personId == personId && a.actionClassId == actionClassId && cutoff ≤ a.createdAt)).length

/-- Referential integrity of the action rows: every action's actionClassId
exists among the action classes. -/
abbrev actionsHaveClasses (db : DB) : Prop :=
  ∀ a ∈ db.actions, ∃ c ∈ db.actionClasses, c.id = a.actionClassId

/-- Strings without the hyphen separator of the cache keys; every valid id
is hyphen-free. -/
def hyphenFree (s : String) : Bool :=
  !(s.data.contains '-')

/-- A small concrete database to instantiate the theorems on: one
environment env1 with one webhook, one attribute class, one action class,
one person and two of that person's actions. -/
def dbW : DB where
  now := 1700000000000
  actions := [⟨"act1", 1699999000000, "p1", "", "cls1"⟩,
              ⟨"act2", 1600000000000, "p1", "", "cls1"⟩]
  actionClasses := [⟨"cls1", "env1", "Button Click", "code"⟩]
  webhooks := [⟨"wh1", "env1"⟩]
  attributeClasses := [⟨"atc1", "env1"⟩]
  persons := [⟨"p1", "env1", "u1"⟩]
  envAccess := [("u1", "env1")]
  monthlyActivePersons := []
  dbFault := none

/-- The same database with an injected fault: every Prisma call throws. -/
def dbFaultW : DB :=
  { dbW with dbFault := some (.otherError "connection reset") }

/-- The same database without any person row: the create's person connect
throws after a nested createActionClass write has already happened. -/
def dbNoPersonW : DB :=
  { dbW with persons := [] }

theorem isValidId_pos_length {s : String} (h : isValidId s = true) : 0 < s.length := by
  unfold isValidId at h
  simp only [Bool.and_eq_true, decide_eq_true_eq] at h
  exact h.1

/-- C1: for validated ids, canUserAccessWebhook and
canUserAccessAttributeClass return ok of a boolean that is false when the
looked-up resource does not exist and otherwise equals
hasUserEnvironmentAccess on the resource's environment; in particular the
result is true only when the resource exists and the user has access to
its environment. -/
theorem claim_C1 (db : DB) (userId webhookId attributeClassId : String)
    (hu : isValidId userId = true) (hw : isValidId webhookId = true)
    (hac : isValidId attributeClassId = true) :
    (∃ b : Bool, canUserAccessWebhook db userId webhookId = .ok b ∧
      (getWebhook db webhookId = none → b = false) ∧
      (∀ w, getWebhook db webhookId = some w →
        b = hasUserEnvironmentAccess db userId w.environmentId) ∧
      (b = true → ∃ w, getWebhook db webhookId = some w ∧
        hasUserEnvironmentAccess db userId w.environmentId = true)) ∧
    (∃ b : Bool, canUserAccessAttributeClass db userId attributeClassId = .ok b ∧
      (getAttributeClass db attributeClassId = none → b = false) ∧
      (∀ c, getAttributeClass db attributeClassId = some c →
        b = hasUserEnvironmentAccess db userId c.environmentId) ∧
      (b = true → ∃ c, getAttributeClass db attributeClassId = some c ∧
        hasUserEnvironmentAccess db userId c.environmentId = true)) := by
  have hulen : userId.length ≠ 0 := Nat.pos_iff_ne_zero.mp (isValidId_pos_length hu)
  constructor
  · cases hwh : getWebhook db webhookId with
    | none =>
      refine ⟨false, ?_, fun _ => rfl, ?_, ?_⟩
      · simp [canUserAccessWebhook, hu, hw, hwh]
      · intro w hww
        exact absurd hww (by simp)
      · intro hb
        exact absurd hb (by simp)
    | some w =>
      refine ⟨hasUserEnvironmentAccess db userId w.environmentId, ?_, ?_, ?_, ?_⟩
      · cases hacc : hasUserEnvironmentAccess db userId w.environmentId with
        | false => simp [canUserAccessWebhook, hu, hw, hwh, hacc]
        | true => simp [canUserAccessWebhook, hu, hw, hwh, hacc]
      · intro hnone
        exact absurd hnone (by simp)
      · intro w2 hw2
        injection hw2 with hww
        rw [hww]
      · intro hb
        exact ⟨w, rfl, hb⟩
  · cases hwh : getAttributeClass db attributeClassId with
    | none =>
      refine ⟨false, ?_, fun _ => rfl, ?_, ?_⟩
      · simp [canUserAccessAttributeClass, hu, hac, hwh, hulen]
      · intro c hcc
        exact absurd hcc (by simp)
      · intro hb
        exact absurd hb (by simp)
    | some c =>
      refine ⟨hasUserEnvironmentAccess db userId c.environmentId, ?_, ?_, ?_, ?_⟩
      · cases hacc : hasUserEnvironmentAccess db userId c.environmentId with
        | false => simp [canUserAccessAttributeClass, hu, hac, hwh, hacc, hulen]
        | true => simp [canUserAccessAttributeClass, hu, hac, hwh, hacc, hulen]
      · intro hnone
        exact absurd hnone (by simp)
      · intro c2 hc2
        injection hc2 with hcc
        rw [hcc]
      · intro hb
        exact ⟨c, rfl, hb⟩

/-- Witness for C1 on the concrete database: the user u1 has access to the
environment of webhook wh1 and of attribute class atc1. -/
theorem claim_C1_witness :
    isValidId "u1" = true ∧ isValidId "wh1" = true ∧ isValidId "atc1" = true ∧
    ((∃ b : Bool, canUserAccessWebhook dbW "u1" "wh1" = .ok b ∧
      (getWebhook dbW "wh1" = none → b = false) ∧
      (∀ w, getWebhook dbW "wh1" = some w →
        b = hasUserEnvironmentAccess dbW "u1" w.environmentId) ∧
      (b = true → ∃ w, getWebhook dbW "wh1" = some w ∧
        hasUserEnvironmentAccess dbW "u1" w.environmentId = true)) ∧
    (∃ b : Bool, canUserAccessAttributeClass dbW "u1" "atc1" = .ok b ∧
      (getAttributeClass dbW "atc1" = none → b = false) ∧
      (∀ c, getAttributeClass dbW "atc1" = some c →
        b = hasUserEnvironmentAccess dbW "u1" c.environmentId) ∧
      (b = true → ∃ c, getAttributeClass dbW "atc1" = some c ∧
        hasUserEnvironmentAccess dbW "u1" c.environmentId = true))) :=
  ⟨by decide, by decide, by decide,
   claim_C1 dbW "u1" "wh1" "atc1" (by decide) (by decide) (by decide)⟩

/-- C3: when an input fails its schema, each operation of the action
service returns the validation error having performed no database
operation; createAction additionally leaves the state unchanged and
revalidates no cache tags. -/
theorem claim_C3 (db : DB) (bad other : String) (page : Option Nat) (d : TActionInput)
    (hbad : isValidId bad = false) (hd : validActionInput d = false) :
    getActionsByPersonId db bad page = (.error (.validationError "Validation failed"), []) ∧
    getActionsByEnvironmentId db bad page = (.error (.validationError "Validation failed"), []) ∧
    getActionCountInLastHour db bad = (.error (.validationError "Validation failed"), []) ∧
    getActionCountInLast24Hours db bad = (.error (.validationError "Validation failed"), []) ∧
    getActionCountInLast7Days db bad = (.error (.validationError "Validation failed"), []) ∧
    getActionCountInLastWeek db bad other = (.error (.validationError "Validation failed"), []) ∧
    getActionCountInLastWeek db other bad = (.error (.validationError "Validation failed"), []) ∧
    getActionCountInLastMonth db bad other = (.error (.validationError "Validation failed"), []) ∧
    getActionCountInLastQuarter db bad other = (.error (.validationError "Validation failed"), []) ∧
    getTotalOccurrencesForAction db bad other = (.error (.validationError "Validation failed"), []) ∧
    getLastOccurrenceDaysAgo db bad other = (.error (.validationError "Validation failed"), []) ∧
    getFirstOccurrenceDaysAgo db bad other = (.error (.validationError "Validation failed"), []) ∧
    createAction db d = ⟨.error (.validationError "Validation failed"), db, [], []⟩ := by
  refine ⟨?_, ?_, ?_, ?_, ?_, ?_, ?_, ?_, ?_, ?_, ?_, ?_, ?_⟩
  · simp [getActionsByPersonId, hbad]
  · simp [getActionsByEnvironmentId, hbad]
  · simp [getActionCountInLastHour, hbad]
  · simp [getActionCountInLast24Hours, hbad]
  · simp [getActionCountInLast7Days, hbad]
  · simp [getActionCountInLastWeek, hbad]
  · simp [getActionCountInLastWeek, hbad]
  · simp [getActionCountInLastMonth, hbad]
  · simp [getActionCountInLastQuarter, hbad]
  · simp [getTotalOccurrencesForAction, hbad]
  · simp [getLastOccurrenceDaysAgo, hbad]
  · simp [getFirstOccurrenceDaysAgo, hbad]
  · simp [createAction, hd]

/-- Witness for C3: an id with a hyphen fails the id schema and an input
with an empty name fails the action-input schema, on the concrete
database. -/
theorem claim_C3_witness :
    isValidId "not-valid" = false ∧
    validActionInput ⟨"env1", "u1", ""⟩ = false ∧
    (getActionsByPersonId dbW "not-valid" none =
      (.error (.validationError "Validation failed"), []) ∧
    getActionsByEnvironmentId dbW "not-valid" none =
      (.error (.validationError "Validation failed"), []) ∧
    getActionCountInLastHour dbW "not-valid" =
      (.error (.validationError "Validation failed"), []) ∧
    getActionCountInLast24Hours dbW "not-valid" =
      (.error (.validationError "Validation failed"), []) ∧
    getActionCountInLast7Days dbW "not-valid" =
      (.error (.validationError "Validation failed"), []) ∧
    getActionCountInLastWeek dbW "not-valid" "p1" =
      (.error (.validationError "Validation failed"), []) ∧
    getActionCountInLastWeek dbW "p1" "not-valid" =
      (.error (.validationError "Validation failed"), []) ∧
    getActionCountInLastMonth dbW "not-valid" "p1" =
      (.error (.validationError "Validation failed"), []) ∧
    getActionCountInLastQuarter dbW "not-valid" "p1" =
      (.error (.validationError "Validation failed"), []) ∧
    getTotalOccurrencesForAction dbW "not-valid" "p1" =
      (.error (.validationError "Validation failed"), []) ∧
    getLastOccurrenceDaysAgo dbW "not-valid" "p1" =
      (.error (.validationError "Validation failed"), []) ∧
    getFirstOccurrenceDaysAgo dbW "not-valid" "p1" =
      (.error (.validationError "Validation failed"), []) ∧
    createAction dbW ⟨"env1", "u1", ""⟩ =
      ⟨.error (.validationError "Validation failed"), dbW, [], []⟩) :=
  ⟨by decide, by decide,
   claim_C3 dbW "not-valid" "p1" none ⟨"env1", "u1", ""⟩ (by decide) (by decide)⟩

/-- C8: under an injected Prisma failure, the two list queries and
createAction surface the error through the shared catch block, which maps a
Prisma known request error to DatabaseError("Database operation failed")
and rethrows every other error unchanged, while the count and occurrence
functions rethrow every error unchanged. -/
theorem claim_C8 (db : DB) (e : Err) (personId environmentId actionClassId : String)
    (page : Option Nat) (d : TActionInput)
    (hfault : db.dbFault = some e)
    (hp : isValidId personId = true) (henv : isValidId environmentId = true)
    (hac : isValidId actionClassId = true) (hd : validActionInput d = true) :
    (getActionsByPersonId db personId page).1 = .error (actionServiceCatch e) ∧
    (getActionsByEnvironmentId db environmentId page).1 = .error (actionServiceCatch e) ∧
    (createAction db d).result = .error (actionServiceCatch e) ∧
    (getActionCountInLastHour db actionClassId).1 = .error e ∧
    (getActionCountInLast24Hours db actionClassId).1 = .error e ∧
    (getActionCountInLast7Days db actionClassId).1 = .error e ∧
    (getActionCountInLastWeek db actionClassId personId).1 = .error e ∧
    (getActionCountInLastMonth db actionClassId personId).1 = .error e ∧
    (getActionCountInLastQuarter db actionClassId personId).1 = .error e ∧
    (getTotalOccurrencesForAction db actionClassId personId).1 = .error e ∧
    (getLastOccurrenceDaysAgo db actionClassId personId).1 = .error e ∧
    (getFirstOccurrenceDaysAgo db actionClassId personId).1 = .error e ∧
    (∀ s, actionServiceCatch (.prismaKnownRequestError s) =
      .databaseError "Database operation failed") ∧
    (∀ s, actionServiceCatch (.validationError s) = .validationError s) ∧
    (∀ s, actionServiceCatch (.databaseError s) = .databaseError s) ∧
    (∀ s, actionServiceCatch (.otherError s) = .otherError s) := by
  refine ⟨?_, ?_, ?_, ?_, ?_, ?_, ?_, ?_, ?_, ?_, ?_, ?_,
    fun s => rfl, fun s => rfl, fun s => rfl, fun s => rfl⟩
  · simp [getActionsByPersonId, hp, hfault]
  · simp [getActionsByEnvironmentId, henv, hfault]
  · simp [createAction, hd, hfault]
  · simp [getActionCountInLastHour, hac, hfault]
  · simp [getActionCountInLast24Hours, hac, hfault]
  · simp [getActionCountInLast7Days, hac, hfault]
  · simp [getActionCountInLastWeek, hac, hp, hfault]
  · simp [getActionCountInLastMonth, hac, hp, hfault]
  · simp [getActionCountInLastQuarter, hac, hp, hfault]
  · simp [getTotalOccurrencesForAction, hac, hp, hfault]
  · simp [getLastOccurrenceDaysAgo, hac, hp, hfault]
  · simp [getFirstOccurrenceDaysAgo, hac, hp, hfault]

/-- Witness for C8 on the faulted concrete database, with a non-Prisma
error, on which the catch blocks rethrow the error unchanged. -/
theorem claim_C8_witness :
    dbFaultW.dbFault = some (.otherError "connection reset") ∧
    isValidId "p1" = true ∧ isValidId "env1" = true ∧ isValidId "cls1" = true ∧
    validActionInput ⟨"env1", "u1", "Button Click"⟩ = true ∧
    ((getActionsByPersonId dbFaultW "p1" none).1 =
      .error (actionServiceCatch (.otherError "connection reset")) ∧
    (getActionsByEnvironmentId dbFaultW "env1" none).1 =
      .error (actionServiceCatch (.otherError "connection reset")) ∧
    (createAction dbFaultW ⟨"env1", "u1", "Button Click"⟩).result =
      .error (actionServiceCatch (.otherError "connection reset")) ∧
    (getActionCountInLastHour dbFaultW "cls1").1 = .error (.otherError "connection reset") ∧
    (getActionCountInLast24Hours dbFaultW "cls1").1 = .error (.otherError "connection reset") ∧
    (getActionCountInLast7Days dbFaultW "cls1").1 = .error (.otherError "connection reset") ∧
    (getActionCountInLastWeek dbFaultW "cls1" "p1").1 = .error (.otherError "connection reset") ∧
    (getActionCountInLastMonth dbFaultW "cls1" "p1").1 = .error (.otherError "connection reset") ∧
    (getActionCountInLastQuarter dbFaultW "cls1" "p1").1 =
      .error (.otherError "connection reset") ∧
    (getTotalOccurrencesForAction dbFaultW "cls1" "p1").1 =
      .error (.otherError "connection reset") ∧
    (getLastOccurrenceDaysAgo dbFaultW "cls1" "p1").1 =
      .error (.otherError "connection reset") ∧
    (getFirstOccurrenceDaysAgo dbFaultW "cls1" "p1").1 =
      .error (.otherError "connection reset") ∧
    (∀ s, actionServiceCatch (.prismaKnownRequestError s) =
      .databaseError "Database operation failed") ∧
    (∀ s, actionServiceCatch (.validationError s) = .validationError s) ∧
    (∀ s, actionServiceCatch (.databaseError s) = .databaseError s) ∧
    (∀ s, actionServiceCatch (.otherError s) = .otherError s)) :=
  ⟨by decide, by decide, by decide, by decide, by decide,
   claim_C8 dbFaultW (.otherError "connection reset") "p1" "env1" "cls1" none
     ⟨"env1", "u1", "Button Click"⟩ (by decide) (by decide) (by decide) (by decide) (by decide)⟩

/-- Counterexample to C4 as stated: when no action class of
(environmentId, name) exists yet, the nested createActionClass write
revalidates the created class's action-class cache tag, so a successful
call revalidates more than the two action tags plus the conditional
active-person tag; and a call whose person connect throws after that write
has still revalidated the class tag, not nothing. -/
theorem claim_C4_counterexample :
    (createAction dbW ⟨"env1", "u1", "Signup"⟩).result =
      .ok ⟨"actionRow2", 1700000000000, "p1", "",
        some ⟨"actionClassRow1", "env1", "Signup", "code"⟩⟩ ∧
    Tag.actionClassById "actionClassRow1" ∈
      (createAction dbW ⟨"env1", "u1", "Signup"⟩).revalidated ∧
    (createAction dbW ⟨"env1", "u1", "Signup"⟩).revalidated ≠
      (if getIsPersonMonthlyActive dbW "p1" then []
       else [Tag.activePersonById "p1"]) ++
      [Tag.actionsByEnvironmentId "env1", Tag.actionsByPersonId "p1"] ∧
    (∃ e, (createAction dbNoPersonW ⟨"env1", "u1", "Signup"⟩).result = .error e) ∧
    (createAction dbNoPersonW ⟨"env1", "u1", "Signup"⟩).revalidated ≠ [] :=
  ⟨by decide, by decide, by decide,
   ⟨.databaseError "Database operation failed", by decide⟩, by decide⟩

/-- C4 as amended: a successful createAction revalidates exactly the action
cache tags of the input's environmentId and of the created action's
personId, the active-person tag of that personId exactly when the person
was not monthly active, and additionally the action-class tag of the newly
created action class exactly when no class of (environmentId, name)
existed; a createAction call that throws revalidates exactly the new
class's tag when the nested createActionClass write had happened, and no
tags otherwise. -/
theorem claim_C4_amended (db : DB) (d : TActionInput) :
    (∀ ta, (createAction db d).result = .ok ta →
      (createAction db d).revalidated =
        (match getActionClassByEnvironmentIdAndName db d.environmentId d.name with
         | some _ => []
         | none => [Tag.actionClassById (freshActionClassId db)]) ++
        (if getIsPersonMonthlyActive db ta.personId then []
         else [Tag.activePersonById ta.personId]) ++
        [Tag.actionsByEnvironmentId d.environmentId, Tag.actionsByPersonId ta.personId]) ∧
    (∀ e, (createAction db d).result = .error e →
      (createAction db d).revalidated =
        if validActionInput d = true ∧ db.dbFault = none ∧
            getActionClassByEnvironmentIdAndName db d.environmentId d.name = none
        then [Tag.actionClassById (freshActionClassId db)]
        else []) := by
  by_cases hv : validActionInput d = true
  · cases hfault : db.dbFault with
    | some e =>
      refine ⟨?_, ?_⟩
      · intro ta hta
        simp [createAction, hv, hfault] at hta
      · intro e2 _
        simp [createAction, hv, hfault]
    | none =>
      cases hfound : getActionClassByEnvironmentIdAndName db d.environmentId d.name with
      | none =>
        cases hper : db.persons.find? (fun p =>
            p.environmentId == d.environmentId && p.userId == d.userId) with
        | none =>
          refine ⟨?_, ?_⟩
          · intro ta hta
            simp [createAction, hv, hfault, hfound, hper] at hta
          · intro e2 _
            simp [createAction, hv, hfault, hfound, hper]
        | some person =>
          refine ⟨?_, ?_⟩
          · intro ta hta
            simp [createAction, hv, hfault, hfound, hper] at hta ⊢
            rw [← hta]
            simp [getIsPersonMonthlyActive]
          · intro e2 he2
            simp [createAction, hv, hfault, hfound, hper] at he2
      | some cls =>
        cases hper : db.persons.find? (fun p =>
            p.environmentId == d.environmentId && p.userId == d.userId) with
        | none =>
          refine ⟨?_, ?_⟩
          · intro ta hta
            simp [createAction, hv, hfault, hfound, hper] at hta
          · intro e2 _
            simp [createAction, hv, hfault, hfound, hper]
        | some person =>
          refine ⟨?_, ?_⟩
          · intro ta hta
            simp [createAction, hv, hfault, hfound, hper] at hta ⊢
            rw [← hta]
            simp [getIsPersonMonthlyActive]
          · intro e2 he2
            simp [createAction, hv, hfault, hfound, hper] at he2
  · refine ⟨?_, ?_⟩
    · intro ta hta
      simp [createAction, hv] at hta
    · intro e2 _
      simp [createAction, hv]

/-- Witness for the amended C4: creating an action under a new action-class
name on the concrete database revalidates the new class tag, the
active-person tag and the two action tags. -/
theorem claim_C4_amended_witness :
    (createAction dbW ⟨"env1", "u1", "Signup"⟩).result =
      .ok ⟨"actionRow2", 1700000000000, "p1", "",
        some ⟨"actionClassRow1", "env1", "Signup", "code"⟩⟩ ∧
    (createAction dbW ⟨"env1", "u1", "Signup"⟩).revalidated =
      (match getActionClassByEnvironmentIdAndName dbW "env1" "Signup" with
       | some _ => []
       | none => [Tag.actionClassById (freshActionClassId dbW)]) ++
      (if getIsPersonMonthlyActive dbW "p1" then []
       else [Tag.activePersonById "p1"]) ++
      [Tag.actionsByEnvironmentId "env1", Tag.actionsByPersonId "p1"] :=
  ⟨by decide,
   (claim_C4_amended dbW ⟨"env1", "u1", "Signup"⟩).1
     ⟨"actionRow2", 1700000000000, "p1", "",
       some ⟨"actionClassRow1", "env1", "Signup", "code"⟩⟩ (by decide)⟩

theorem actionHasClass_eq_of_wf {db : DB} (hwf : actionsHaveClasses db)
    {a : ActionRecord} (ha : a ∈ db.actions) (actionClassId : String) :
    actionHasClass db actionClassId a = (a.actionClassId == actionClassId) := by
  obtain ⟨c, hc, hcid⟩ := hwf a ha
  unfold actionHasClass includeActionClass
  cases hfind : db.actionClasses.find? (fun cl => cl.id == a.actionClassId) with
  | none =>
    exfalso
    have hsome : (db.actionClasses.find? (fun cl => cl.id == a.actionClassId)).isSome :=
      List.find?_isSome.mpr ⟨c, hc, by simp [hcid]⟩
    rw [hfind] at hsome
    simp at hsome
  | some c2 =>
    have h2 := List.find?_some hfind
    simp only [beq_iff_eq] at h2
    simp only [h2]

/-- C2: each of the six count functions is exactly the time-bounded count
of the claim: the class-scoped functions count the actions of the class
created at or after now minus one hour, 24 hours and 7 days, and the
person-scoped functions count the person's actions of the class created at
or after the start of the last week, month and quarter, with no other
filtering. -/
theorem claim_C2 (db : DB) (actionClassId personId : String)
    (hfault : db.dbFault = none) (hwf : actionsHaveClasses db)
    (hac : isValidId actionClassId = true) (hp : isValidId personId = true) :
    (getActionCountInLastHour db actionClassId).1 =
      .ok (specCountOfClassSince db actionClassId (db.now - 60 * 60 * 1000)) ∧
    (getActionCountInLast24Hours db actionClassId).1 =
      .ok (specCountOfClassSince db actionClassId (db.now - 24 * 60 * 60 * 1000)) ∧
    (getActionCountInLast7Days db actionClassId).1 =
      .ok (specCountOfClassSince db actionClassId (db.now - 7 * 24 * 60 * 60 * 1000)) ∧
    (getActionCountInLastWeek db actionClassId personId).1 =
      .ok (specCountOfPersonClassSince db actionClassId personId
        (getStartDateOfLastWeek db.now)) ∧
    (getActionCountInLastMonth db actionClassId personId).1 =
      .ok (specCountOfPersonClassSince db actionClassId personId
        (getStartDateOfLastMonth db.now)) ∧
    (getActionCountInLastQuarter db actionClassId personId).1 =
      .ok (specCountOfPersonClassSince db actionClassId personId
        (getStartDateOfLastQuarter db.now)) := by
  have hcongr : ∀ cutoff : Int,
      db.actions.filter (fun a =>
        a.personId == personId && (actionHasClass db actionClassId a &&
          decide (cutoff ≤ a.createdAt))) =
      db.actions.filter (fun a =>
        a.personId == personId && (a.actionClassId == actionClassId &&
          decide (cutoff ≤ a.createdAt))) := by
    intro cutoff
    apply List.filter_congr
    intro a ha
    rw [actionHasClass_eq_of_wf hwf ha]
  refine ⟨?_, ?_, ?_, ?_, ?_, ?_⟩
  · simp [getActionCountInLastHour, specCountOfClassSince, hac, hfault]
  · simp [getActionCountInLast24Hours, specCountOfClassSince, hac, hfault]
  · simp [getActionCountInLast7Days, specCountOfClassSince, hac, hfault]
  · simp only [getActionCountInLastWeek, specCountOfPersonClassSince, hac, hp, hfault,
      Bool.and_self, Bool.not_true, Bool.false_eq_true, if_false, Bool.and_assoc]
    rw [hcongr]
  · simp only [getActionCountInLastMonth, specCountOfPersonClassSince, hac, hp, hfault,
      Bool.and_self, Bool.not_true, Bool.false_eq_true, if_false, Bool.and_assoc]
    rw [hcongr]
  · simp only [getActionCountInLastQuarter, specCountOfPersonClassSince, hac, hp, hfault,
      Bool.and_self, Bool.not_true, Bool.false_eq_true, if_false, Bool.and_assoc]
    rw [hcongr]

/-- Witness for C2 on the concrete database: the action class cls1 and the
person p1. -/
theorem claim_C2_witness :
    dbW.dbFault = none ∧ actionsHaveClasses dbW ∧
    isValidId "cls1" = true ∧ isValidId "p1" = true ∧
    ((getActionCountInLastHour dbW "cls1").1 =
      .ok (specCountOfClassSince dbW "cls1" (dbW.now - 60 * 60 * 1000)) ∧
    (getActionCountInLast24Hours dbW "cls1").1 =
      .ok (specCountOfClassSince dbW "cls1" (dbW.now - 24 * 60 * 60 * 1000)) ∧
    (getActionCountInLast7Days dbW "cls1").1 =
      .ok (specCountOfClassSince dbW "cls1" (dbW.now - 7 * 24 * 60 * 60 * 1000)) ∧
    (getActionCountInLastWeek dbW "cls1" "p1").1 =
      .ok (specCountOfPersonClassSince dbW "cls1" "p1" (getStartDateOfLastWeek dbW.now)) ∧
    (getActionCountInLastMonth dbW "cls1" "p1").1 =
      .ok (specCountOfPersonClassSince dbW "cls1" "p1" (getStartDateOfLastMonth dbW.now)) ∧
    (getActionCountInLastQuarter dbW "cls1" "p1").1 =
      .ok (specCountOfPersonClassSince dbW "cls1" "p1" (getStartDateOfLastQuarter dbW.now))) :=
  ⟨by decide, by decide, by decide, by decide,
   claim_C2 dbW "cls1" "p1" (by decide) (by decide) (by decide) (by decide)⟩

theorem createdAtDesc_trans : ∀ a b c : ActionRecord,
    createdAtDesc a b = true → createdAtDesc b c = true → createdAtDesc a c = true := by
  intro a b c hab hbc
  simp only [createdAtDesc, decide_eq_true_eq] at *
  exact le_trans hbc hab

theorem createdAtDesc_total : ∀ a b : ActionRecord,
    (createdAtDesc a b || createdAtDesc b a) = true := by
  intro a b
  simp only [createdAtDesc, Bool.or_eq_true, decide_eq_true_eq]
  exact Int.le_total b.createdAt a.createdAt

theorem createdAtAsc_trans : ∀ a b c : ActionRecord,
    createdAtAsc a b = true → createdAtAsc b c = true → createdAtAsc a c = true := by
  intro a b c hab hbc
  simp only [createdAtAsc, decide_eq_true_eq] at *
  exact le_trans hab hbc

theorem createdAtAsc_total : ∀ a b : ActionRecord,
    (createdAtAsc a b || createdAtAsc b a) = true := by
  intro a b
  simp only [createdAtAsc, Bool.or_eq_true, decide_eq_true_eq]
  exact Int.le_total a.createdAt b.createdAt

theorem paginate_sublist (l : List ActionRecord) (page : Option Nat) :
    (paginate l page).Sublist l := by
  unfold paginate
  cases page with
  | none => exact List.Sublist.refl l
  | some p =>
    show (if p ≠ 0 then (l.drop (ITEMS_PER_PAGE * (p - 1))).take ITEMS_PER_PAGE else l).Sublist l
    by_cases hp : p ≠ 0
    · rw [if_pos hp]
      exact (List.take_sublist _ _).trans (List.drop_sublist _ _)
    · rw [if_neg hp]

/-- C5: both list queries return only correctly scoped actions (the action
class of the environment query's results belongs to the environment; the
person query's results belong to the person), every element being the
TAction shaping of a database row with formatDateFields applied. -/
theorem claim_C5 (db : DB) (environmentId personId : String) (page : Option Nat)
    (hfault : db.dbFault = none) (henv : isValidId environmentId = true)
    (hp : isValidId personId = true) :
    (∃ l, (getActionsByEnvironmentId db environmentId page).1 = .ok l ∧
      ∀ ta ∈ l, ∃ a, a ∈ db.actions ∧ actionInEnvironment db environmentId a = true ∧
        ta = formatDateFields (toTAction db a)) ∧
    (∃ l, (getActionsByPersonId db personId page).1 = .ok l ∧
      ∀ ta ∈ l, ∃ a, a ∈ db.actions ∧ a.personId = personId ∧
        ta = formatDateFields (toTAction db a)) := by
  constructor
  · refine ⟨((paginate (sortByCreatedAtDesc
      (db.actions.filter (actionInEnvironment db environmentId))) page).map
        (toTAction db)).map formatDateFields, ?_, ?_⟩
    · simp [getActionsByEnvironmentId, henv, hfault]
    · intro ta hta
      obtain ⟨tb, htb, hta2⟩ := List.mem_map.mp hta
      obtain ⟨a, haRows, hba⟩ := List.mem_map.mp htb
      have haSorted : a ∈ sortByCreatedAtDesc
          (db.actions.filter (actionInEnvironment db environmentId)) :=
        (paginate_sublist _ _).subset haRows
      have haFilter : a ∈ db.actions.filter (actionInEnvironment db environmentId) :=
        ((List.mergeSort_perm _ _).mem_iff).mp haSorted
      have hmem := List.mem_filter.mp haFilter
      exact ⟨a, hmem.1, hmem.2, by rw [← hta2, ← hba]⟩
  · refine ⟨((paginate (sortByCreatedAtDesc
      (db.actions.filter (fun a => a.personId == personId))) page).map
        (toTAction db)).map formatDateFields, ?_, ?_⟩
    · simp [getActionsByPersonId, hp, hfault]
    · intro ta hta
      obtain ⟨tb, htb, hta2⟩ := List.mem_map.mp hta
      obtain ⟨a, haRows, hba⟩ := List.mem_map.mp htb
      have haSorted : a ∈ sortByCreatedAtDesc
          (db.actions.filter (fun a => a.personId == personId)) :=
        (paginate_sublist _ _).subset haRows
      have haFilter : a ∈ db.actions.filter (fun a => a.personId == personId) :=
        ((List.mergeSort_perm _ _).mem_iff).mp haSorted
      have hmem := List.mem_filter.mp haFilter
      refine ⟨a, hmem.1, ?_, by rw [← hta2, ← hba]⟩
      have := hmem.2
      simpa using this

/-- Witness for C5 on the concrete database. -/
theorem claim_C5_witness :
    dbW.dbFault = none ∧ isValidId "env1" = true ∧ isValidId "p1" = true ∧
    ((∃ l, (getActionsByEnvironmentId dbW "env1" none).1 = .ok l ∧
      ∀ ta ∈ l, ∃ a, a ∈ dbW.actions ∧ actionInEnvironment dbW "env1" a = true ∧
        ta = formatDateFields (toTAction dbW a)) ∧
    (∃ l, (getActionsByPersonId dbW "p1" none).1 = .ok l ∧
      ∀ ta ∈ l, ∃ a, a ∈ dbW.actions ∧ a.personId = "p1" ∧
        ta = formatDateFields (toTAction dbW a))) :=
  ⟨by decide, by decide, by decide,
   claim_C5 dbW "env1" "p1" none (by decide) (by decide) (by decide)⟩

theorem list_query_shape (db : DB) (f : ActionRecord → Bool) (page : Option Nat)
    (l : List TAction)
    (hl : l = ((paginate (sortByCreatedAtDesc (db.actions.filter f)) page).map
      (toTAction db)).map formatDateFields) :
    l.Pairwise (fun x y => y.createdAt ≤ x.createdAt) ∧
    (∀ p2, page = some p2 → 0 < p2 →
      l.length ≤ ITEMS_PER_PAGE ∧
      l = (((sortByCreatedAtDesc (db.actions.filter f)).drop
        (ITEMS_PER_PAGE * (p2 - 1))).take ITEMS_PER_PAGE).map
          (fun a => formatDateFields (toTAction db a))) ∧
    (page = none →
      l = (sortByCreatedAtDesc (db.actions.filter f)).map
        (fun a => formatDateFields (toTAction db a)) ∧
      ∀ a ∈ db.actions, f a = true → formatDateFields (toTAction db a) ∈ l) := by
  subst hl
  refine ⟨?_, ?_, ?_⟩
  · have hsorted : (sortByCreatedAtDesc (db.actions.filter f)).Pairwise
        (fun a b => createdAtDesc a b = true) :=
      List.sorted_mergeSort createdAtDesc_trans createdAtDesc_total (db.actions.filter f)
    have hpag : (paginate (sortByCreatedAtDesc (db.actions.filter f)) page).Pairwise
        (fun a b => createdAtDesc a b = true) :=
      List.Pairwise.sublist (paginate_sublist _ _) hsorted
    rw [List.map_map]
    refine hpag.map _ ?_
    intro a b h
    simp only [createdAtDesc, decide_eq_true_eq] at h
    simp only [Function.comp, formatDateFields, toTAction]
    exact h
  · intro p2 hpage hpos
    subst hpage
    have hne : p2 ≠ 0 := Nat.pos_iff_ne_zero.mp hpos
    constructor
    · simp only [List.length_map, paginate]
      rw [if_pos hne]
      exact List.length_take_le _ _
    · simp only [paginate, List.map_map]
      rw [if_pos hne]
      rfl
  · intro hpage
    subst hpage
    constructor
    · simp only [paginate, List.map_map]
      simp [Function.comp]
    · intro a ha hf
      simp only [paginate, List.map_map]
      apply List.mem_map.mpr
      refine ⟨a, ?_, rfl⟩
      unfold sortByCreatedAtDesc
      exact ((List.mergeSort_perm _ _).mem_iff).mpr (List.mem_filter.mpr ⟨ha, hf⟩)

/-- C7: both list queries return actions sorted by createdAt in descending
order; with a positive page they return at most ITEMS_PER_PAGE actions
after skipping the first ITEMS_PER_PAGE * (page - 1) in that order, and
with no page they return all matching actions. -/
theorem claim_C7 (db : DB) (personId environmentId : String) (page : Option Nat)
    (hfault : db.dbFault = none) (hp : isValidId personId = true)
    (henv : isValidId environmentId = true) :
    (∃ l, (getActionsByPersonId db personId page).1 = .ok l ∧
      (l.Pairwise (fun x y => y.createdAt ≤ x.createdAt) ∧
      (∀ p2, page = some p2 → 0 < p2 →
        l.length ≤ ITEMS_PER_PAGE ∧
        l = (((sortByCreatedAtDesc (db.actions.filter (fun a => a.personId == personId))).drop
          (ITEMS_PER_PAGE * (p2 - 1))).take ITEMS_PER_PAGE).map
            (fun a => formatDateFields (toTAction db a))) ∧
      (page = none →
        l = (sortByCreatedAtDesc (db.actions.filter (fun a => a.personId == personId))).map
          (fun a => formatDateFields (toTAction db a)) ∧
        ∀ a ∈ db.actions, (a.personId == personId) = true →
          formatDateFields (toTAction db a) ∈ l))) ∧
    (∃ l, (getActionsByEnvironmentId db environmentId page).1 = .ok l ∧
      (l.Pairwise (fun x y => y.createdAt ≤ x.createdAt) ∧
      (∀ p2, page = some p2 → 0 < p2 →
        l.length ≤ ITEMS_PER_PAGE ∧
        l = (((sortByCreatedAtDesc
            (db.actions.filter (actionInEnvironment db environmentId))).drop
          (ITEMS_PER_PAGE * (p2 - 1))).take ITEMS_PER_PAGE).map
            (fun a => formatDateFields (toTAction db a))) ∧
      (page = none →
        l = (sortByCreatedAtDesc (db.actions.filter (actionInEnvironment db environmentId))).map
          (fun a => formatDateFields (toTAction db a)) ∧
        ∀ a ∈ db.actions, actionInEnvironment db environmentId a = true →
          formatDateFields (toTAction db a) ∈ l))) := by
  constructor
  · refine ⟨((paginate (sortByCreatedAtDesc
      (db.actions.filter (fun a => a.personId == personId))) page).map
        (toTAction db)).map formatDateFields, ?_,
      list_query_shape db (fun a => a.personId == personId) page _ rfl⟩
    simp [getActionsByPersonId, hp, hfault]
  · refine ⟨((paginate (sortByCreatedAtDesc
      (db.actions.filter (actionInEnvironment db environmentId))) page).map
        (toTAction db)).map formatDateFields, ?_,
      list_query_shape db (actionInEnvironment db environmentId) page _ rfl⟩
    simp [getActionsByEnvironmentId, henv, hfault]

/-- Witness for C7 on the concrete database with no page. -/
theorem claim_C7_witness :
    dbW.dbFault = none ∧ isValidId "p1" = true ∧ isValidId "env1" = true ∧
    ((∃ l, (getActionsByPersonId dbW "p1" none).1 = .ok l ∧
      (l.Pairwise (fun x y => y.createdAt ≤ x.createdAt) ∧
      (∀ p2, (none : Option Nat) = some p2 → 0 < p2 →
        l.length ≤ ITEMS_PER_PAGE ∧
        l = (((sortByCreatedAtDesc (dbW.actions.filter (fun a => a.personId == "p1"))).drop
          (ITEMS_PER_PAGE * (p2 - 1))).take ITEMS_PER_PAGE).map
            (fun a => formatDateFields (toTAction dbW a))) ∧
      ((none : Option Nat) = none →
        l = (sortByCreatedAtDesc (dbW.actions.filter (fun a => a.personId == "p1"))).map
          (fun a => formatDateFields (toTAction dbW a)) ∧
        ∀ a ∈ dbW.actions, (a.personId == "p1") = true →
          formatDateFields (toTAction dbW a) ∈ l))) ∧
    (∃ l, (getActionsByEnvironmentId dbW "env1" none).1 = .ok l ∧
      (l.Pairwise (fun x y => y.createdAt ≤ x.createdAt) ∧
      (∀ p2, (none : Option Nat) = some p2 → 0 < p2 →
        l.length ≤ ITEMS_PER_PAGE ∧
        l = (((sortByCreatedAtDesc
            (dbW.actions.filter (actionInEnvironment dbW "env1"))).drop
          (ITEMS_PER_PAGE * (p2 - 1))).take ITEMS_PER_PAGE).map
            (fun a => formatDateFields (toTAction dbW a))) ∧
      ((none : Option Nat) = none →
        l = (sortByCreatedAtDesc (dbW.actions.filter (actionInEnvironment dbW "env1"))).map
          (fun a => formatDateFields (toTAction dbW a)) ∧
        ∀ a ∈ dbW.actions, actionInEnvironment dbW "env1" a = true →
          formatDateFields (toTAction dbW a) ∈ l)))) :=
  ⟨by decide, by decide, by decide,
   claim_C7 dbW "p1" "env1" none (by decide) (by decide) (by decide)⟩

theorem length_filter_mono {α : Type} {p q : α → Bool} (l : List α)
    (h : ∀ a, p a = true → q a = true) :
    (l.filter p).length ≤ (l.filter q).length :=
  List.Sublist.length_le (List.monotone_filter_right l h)

theorem mergeSort_eq_nil_iff {α : Type} {le : α → α → Bool} {l : List α} :
    l.mergeSort le = [] ↔ l = [] := by
  constructor
  · intro h
    have hlen := @List.length_mergeSort _ le l
    rw [h] at hlen
    exact List.length_eq_zero.mp hlen.symm
  · intro h
    subst h
    simp

theorem mem_of_head?_eq_some {α : Type} {l : List α} {a : α} (h : l.head? = some a) :
    a ∈ l := by
  cases l with
  | nil => simp at h
  | cons x t =>
    simp only [List.head?_cons, Option.some_inj] at h
    rw [← h]
    exact List.mem_cons_self x t

theorem head_sortByCreatedAtDesc_max {l : List ActionRecord} {m : ActionRecord}
    (h : (sortByCreatedAtDesc l).head? = some m) :
    ∀ a ∈ l, a.createdAt ≤ m.createdAt := by
  intro a ha
  have hperm := List.mergeSort_perm l createdAtDesc
  have hsorted : (l.mergeSort createdAtDesc).Pairwise (fun x y => createdAtDesc x y = true) :=
    List.sorted_mergeSort createdAtDesc_trans createdAtDesc_total l
  unfold sortByCreatedAtDesc at h
  cases hms : l.mergeSort createdAtDesc with
  | nil =>
    rw [hms] at h
    simp at h
  | cons x t =>
    rw [hms] at h hsorted
    simp only [List.head?_cons, Option.some_inj] at h
    rw [← h]
    have hmem : a ∈ x :: t := by
      rw [← hms]
      exact hperm.mem_iff.mpr ha
    rcases List.mem_cons.mp hmem with heq | htail
    · rw [heq]
    · have := (List.pairwise_cons.mp hsorted).1 a htail
      simpa [createdAtDesc] using this

theorem head_sortByCreatedAtAsc_min {l : List ActionRecord} {m : ActionRecord}
    (h : (sortByCreatedAtAsc l).head? = some m) :
    ∀ a ∈ l, m.createdAt ≤ a.createdAt := by
  intro a ha
  have hperm := List.mergeSort_perm l createdAtAsc
  have hsorted : (l.mergeSort createdAtAsc).Pairwise (fun x y => createdAtAsc x y = true) :=
    List.sorted_mergeSort createdAtAsc_trans createdAtAsc_total l
  unfold sortByCreatedAtAsc at h
  cases hms : l.mergeSort createdAtAsc with
  | nil =>
    rw [hms] at h
    simp at h
  | cons x t =>
    rw [hms] at h hsorted
    simp only [List.head?_cons, Option.some_inj] at h
    rw [← h]
    have hmem : a ∈ x :: t := by
      rw [← hms]
      exact hperm.mem_iff.mpr ha
    rcases List.mem_cons.mp hmem with heq | htail
    · rw [heq]
    · have := (List.pairwise_cons.mp hsorted).1 a htail
      simpa [createdAtAsc] using this

/-- C9: for a fixed state and clock the hour count is at most the 24-hour
count, which is at most the 7-day count; last and first occurrence are null
exactly when the total count of the person's actions of the class is 0; and
when both are non-null, the last occurrence is at most as many days ago as
the first. -/
theorem claim_C9 (db : DB) (actionClassId personId : String)
    (hfault : db.dbFault = none) (hac : isValidId actionClassId = true)
    (hp : isValidId personId = true) :
    (∃ n1 n2 n3 : Nat,
      (getActionCountInLastHour db actionClassId).1 = .ok n1 ∧
      (getActionCountInLast24Hours db actionClassId).1 = .ok n2 ∧
      (getActionCountInLast7Days db actionClassId).1 = .ok n3 ∧
      n1 ≤ n2 ∧ n2 ≤ n3) ∧
    (∃ t : Nat, (getTotalOccurrencesForAction db actionClassId personId).1 = .ok t ∧
      ((getLastOccurrenceDaysAgo db actionClassId personId).1 = .ok none ↔ t = 0) ∧
      ((getFirstOccurrenceDaysAgo db actionClassId personId).1 = .ok none ↔ t = 0)) ∧
    (∀ dLast dFirst : Int,
      (getLastOccurrenceDaysAgo db actionClassId personId).1 = .ok (some dLast) →
      (getFirstOccurrenceDaysAgo db actionClassId personId).1 = .ok (some dFirst) →
      dLast ≤ dFirst) := by
  refine ⟨?_, ?_, ?_⟩
  · refine ⟨(db.actions.filter (fun a => a.actionClassId == actionClassId &&
        decide (db.now - 60 * 60 * 1000 ≤ a.createdAt))).length,
      (db.actions.filter (fun a => a.actionClassId == actionClassId &&
        decide (db.now - 24 * 60 * 60 * 1000 ≤ a.createdAt))).length,
      (db.actions.filter (fun a => a.actionClassId == actionClassId &&
        decide (db.now - 7 * 24 * 60 * 60 * 1000 ≤ a.createdAt))).length,
      ?_, ?_, ?_, ?_, ?_⟩
    · simp [getActionCountInLastHour, hac, hfault]
    · simp [getActionCountInLast24Hours, hac, hfault]
    · simp [getActionCountInLast7Days, hac, hfault]
    · apply length_filter_mono
      intro a hcond
      simp only [Bool.and_eq_true, decide_eq_true_eq] at hcond ⊢
      exact ⟨hcond.1, by omega⟩
    · apply length_filter_mono
      intro a hcond
      simp only [Bool.and_eq_true, decide_eq_true_eq] at hcond ⊢
      exact ⟨hcond.1, by omega⟩
  · refine ⟨(db.actions.filter (fun a =>
        a.personId == personId && actionHasClass db actionClassId a)).length, ?_, ?_, ?_⟩
    · simp [getTotalOccurrencesForAction, hac, hp, hfault]
    · cases hh : (sortByCreatedAtDesc (db.actions.filter (fun a =>
          a.personId == personId && actionHasClass db actionClassId a))).head? with
      | none =>
        have hnil : db.actions.filter (fun a =>
            a.personId == personId && actionHasClass db actionClassId a) = [] :=
          mergeSort_eq_nil_iff.mp (List.head?_eq_none_iff.mp hh)
        refine iff_of_true ?_ ?_
        · simp [getLastOccurrenceDaysAgo, hac, hp, hfault, hh]
        · simp [hnil]
      | some x =>
        refine iff_of_false ?_ ?_
        · simp [getLastOccurrenceDaysAgo, hac, hp, hfault, hh]
        · have hne : db.actions.filter (fun a =>
              a.personId == personId && actionHasClass db actionClassId a) ≠ [] := by
            intro hnil
            rw [sortByCreatedAtDesc, hnil] at hh
            simp at hh
          simpa [List.length_eq_zero] using hne
    · cases hh : (sortByCreatedAtAsc (db.actions.filter (fun a =>
          a.personId == personId && actionHasClass db actionClassId a))).head? with
      | none =>
        have hnil : db.actions.filter (fun a =>
            a.personId == personId && actionHasClass db actionClassId a) = [] :=
          mergeSort_eq_nil_iff.mp (List.head?_eq_none_iff.mp hh)
        refine iff_of_true ?_ ?_
        · simp [getFirstOccurrenceDaysAgo, hac, hp, hfault, hh]
        · simp [hnil]
      | some x =>
        refine iff_of_false ?_ ?_
        · simp [getFirstOccurrenceDaysAgo, hac, hp, hfault, hh]
        · have hne : db.actions.filter (fun a =>
              a.personId == personId && actionHasClass db actionClassId a) ≠ [] := by
            intro hnil
            rw [sortByCreatedAtAsc, hnil] at hh
            simp at hh
          simpa [List.length_eq_zero] using hne
  · intro dLast dFirst hL hF
    cases hh1 : (sortByCreatedAtDesc (db.actions.filter (fun a =>
        a.personId == personId && actionHasClass db actionClassId a))).head? with
    | none =>
      simp [getLastOccurrenceDaysAgo, hac, hp, hfault, hh1] at hL
    | some mL =>
      cases hh2 : (sortByCreatedAtAsc (db.actions.filter (fun a =>
          a.personId == personId && actionHasClass db actionClassId a))).head? with
      | none =>
        simp [getFirstOccurrenceDaysAgo, hac, hp, hfault, hh2] at hF
      | some mF =>
        simp only [getLastOccurrenceDaysAgo, hac, hp, hfault, hh1, Bool.and_self,
          Bool.not_true, Bool.false_eq_true, if_false] at hL
        simp only [getFirstOccurrenceDaysAgo, hac, hp, hfault, hh2, Bool.and_self,
          Bool.not_true, Bool.false_eq_true, if_false] at hF
        have hmemF : mF ∈ db.actions.filter (fun a =>
            a.personId == personId && actionHasClass db actionClassId a) := by
          have := mem_of_head?_eq_some hh2
          unfold sortByCreatedAtAsc at this
          exact (List.mergeSort_perm _ _).mem_iff.mp this
        have hle : mF.createdAt ≤ mL.createdAt :=
          head_sortByCreatedAtDesc_max hh1 mF hmemF
        have hsub : db.now - mL.createdAt ≤ db.now - mF.createdAt := by omega
        have hdiv := Int.ediv_le_ediv (by norm_num : (0:Int) < 24 * 60 * 60 * 1000) hsub
        have hLe : dLast = differenceInDays db.now mL.createdAt :=
          (Option.some_inj.mp (Except.ok.inj hL)).symm
        have hFe : dFirst = differenceInDays db.now mF.createdAt :=
          (Option.some_inj.mp (Except.ok.inj hF)).symm
        rw [hLe, hFe]
        simpa [differenceInDays] using hdiv

/-- Witness for C9 on the concrete database. -/
theorem claim_C9_witness :
    dbW.dbFault = none ∧ isValidId "cls1" = true ∧ isValidId "p1" = true ∧
    ((∃ n1 n2 n3 : Nat,
      (getActionCountInLastHour dbW "cls1").1 = .ok n1 ∧
      (getActionCountInLast24Hours dbW "cls1").1 = .ok n2 ∧
      (getActionCountInLast7Days dbW "cls1").1 = .ok n3 ∧
      n1 ≤ n2 ∧ n2 ≤ n3) ∧
    (∃ t : Nat, (getTotalOccurrencesForAction dbW "cls1" "p1").1 = .ok t ∧
      ((getLastOccurrenceDaysAgo dbW "cls1" "p1").1 = .ok none ↔ t = 0) ∧
      ((getFirstOccurrenceDaysAgo dbW "cls1" "p1").1 = .ok none ↔ t = 0)) ∧
    (∀ dLast dFirst : Int,
      (getLastOccurrenceDaysAgo dbW "cls1" "p1").1 = .ok (some dLast) →
      (getFirstOccurrenceDaysAgo dbW "cls1" "p1").1 = .ok (some dFirst) →
      dLast ≤ dFirst)) :=
  ⟨by decide, by decide, by decide,
   claim_C9 dbW "cls1" "p1" (by decide) (by decide) (by decide)⟩

theorem sep_inj : ∀ (xs xs2 ys ys2 : List Char), ('-') ∉ xs → ('-') ∉ xs2 →
    xs ++ '-' :: ys = xs2 ++ '-' :: ys2 → xs = xs2 ∧ ys = ys2 := by
  intro xs
  induction xs with
  | nil =>
    intro xs2 ys ys2 _ h2 heq
    cases xs2 with
    | nil => simpa using heq
    | cons c t =>
      exfalso
      simp only [List.nil_append, List.cons_append, List.cons.injEq] at heq
      rw [← heq.1] at h2
      exact h2 (List.mem_cons_self _ _)
  | cons c t ih =>
    intro xs2 ys ys2 h1 h2 heq
    cases xs2 with
    | nil =>
      exfalso
      simp only [List.nil_append, List.cons_append, List.cons.injEq] at heq
      rw [heq.1] at h1
      exact h1 (List.mem_cons_self _ _)
    | cons c2 t2 =>
      simp only [List.cons_append, List.cons.injEq] at heq
      obtain ⟨hc, hrest⟩ := heq
      have h1t : ('-') ∉ t := fun hm => h1 (List.mem_cons_of_mem _ hm)
      have h2t : ('-') ∉ t2 := fun hm => h2 (List.mem_cons_of_mem _ hm)
      obtain ⟨ht, hys⟩ := ih t2 ys ys2 h1t h2t hrest
      exact ⟨by rw [hc, ht], hys⟩

theorem hyphenFree_iff {s : String} : hyphenFree s = true ↔ ('-') ∉ s.data := by
  unfold hyphenFree
  simp

theorem isValidId_hyphenFree {s : String} (h : isValidId s = true) : hyphenFree s = true := by
  rw [hyphenFree_iff]
  unfold isValidId at h
  simp only [Bool.and_eq_true, List.all_eq_true] at h
  intro hmem
  have := h.2 _ hmem
  exact absurd this (by decide)

theorem two_arg_key_inj (p a b a2 b2 : String)
    (ha : hyphenFree a = true) (ha2 : hyphenFree a2 = true)
    (h : [p ++ a ++ "-" ++ b] = [p ++ a2 ++ "-" ++ b2]) : a = a2 ∧ b = b2 := by
  have hk : p ++ a ++ "-" ++ b = p ++ a2 ++ "-" ++ b2 := by
    simpa using h
  have hdash : ("-").data = ['-'] := by decide
  have hd : p.data ++ (a.data ++ ('-' :: b.data)) = p.data ++ (a2.data ++ ('-' :: b2.data)) := by
    have hdata := congrArg String.data hk
    simp only [String.data_append, hdash, List.append_assoc, List.singleton_append] at hdata
    exact hdata
  have hcanc := List.append_cancel_left hd
  obtain ⟨h1, h2⟩ := sep_inj a.data a2.data b.data b2.data
    (hyphenFree_iff.mp ha) (hyphenFree_iff.mp ha2) hcanc
  exact ⟨String.ext h1, String.ext h2⟩

theorem one_arg_key_inj (p a a2 : String) (h : [p ++ a] = [p ++ a2]) : a = a2 := by
  have hk : p ++ a = p ++ a2 := by
    simpa using h
  have hdata := congrArg String.data hk
  simp only [String.data_append] at hdata
  exact String.ext (List.append_cancel_left hdata)

/-- Counterexample to C6 as stated: the cached PostHog free-limit event
passes no tags at all to the framework cache (its options have only the
15-day revalidate), so its tag list cannot name the environment entity it
concerns; moreover two different argument pairs that contain a hyphen
produce the same canUserAccessWebhook cache key, so those calls share a
cache entry. -/
theorem claim_C6_counterexample :
    (sendFreeLimitReachedEventToPosthogBiWeeklyCacheConfig "env1" "inAppSurvey").tags = [] ∧
    (canUserAccessWebhookCacheConfig "a-b" "c").keys =
      (canUserAccessWebhookCacheConfig "a" "b-c").keys ∧
    ("a-b", "c") ≠ (("a", "b-c") : String × String) := by
  refine ⟨rfl, by decide, by decide⟩

/-- C6 as amended: every data-access cached operation keys its cache entry
on the operation name and all of its arguments and tags exactly the tenant
entity it reads with the services revalidation interval, and for hyphen-free
arguments (valid ids are hyphen-free) distinct arguments yield distinct
keys; the PostHog free-limit event keys on plan and environment id with a
15-day revalidate and passes no tags. -/
theorem claim_C6_amended :
    (∀ u1 w1 u2 w2 : String, hyphenFree u1 = true → hyphenFree u2 = true →
      (canUserAccessWebhookCacheConfig u1 w1).keys =
        (canUserAccessWebhookCacheConfig u2 w2).keys → u1 = u2 ∧ w1 = w2) ∧
    (∀ u1 a1 u2 a2 : String, hyphenFree u1 = true → hyphenFree u2 = true →
      (canUserAccessAttributeClassCacheConfig u1 a1).keys =
        (canUserAccessAttributeClassCacheConfig u2 a2).keys → u1 = u2 ∧ a1 = a2) ∧
    (∀ p1 p2 : String, ∀ pg1 pg2 : Option Nat,
      hyphenFree p1 = true → hyphenFree p2 = true →
      (getActionsByPersonIdCacheConfig p1 pg1).keys =
        (getActionsByPersonIdCacheConfig p2 pg2).keys →
      p1 = p2 ∧ pageToString pg1 = pageToString pg2) ∧
    (∀ e1 e2 : String, ∀ pg1 pg2 : Option Nat,
      hyphenFree e1 = true → hyphenFree e2 = true →
      (getActionsByEnvironmentIdCacheConfig e1 pg1).keys =
        (getActionsByEnvironmentIdCacheConfig e2 pg2).keys →
      e1 = e2 ∧ pageToString pg1 = pageToString pg2) ∧
    (∀ a1 a2 : String,
      (getActionCountInLastHourCacheConfig a1).keys =
        (getActionCountInLastHourCacheConfig a2).keys → a1 = a2) ∧
    (∀ a1 a2 : String,
      (getActionCountInLast24HoursCacheConfig a1).keys =
        (getActionCountInLast24HoursCacheConfig a2).keys → a1 = a2) ∧
    (∀ a1 a2 : String,
      (getActionCountInLast7DaysCacheConfig a1).keys =
        (getActionCountInLast7DaysCacheConfig a2).keys → a1 = a2) ∧
    (∀ a1 p1 a2 p2 : String, hyphenFree a1 = true → hyphenFree a2 = true →
      (getActionCountInLastWeekCacheConfig a1 p1).keys =
        (getActionCountInLastWeekCacheConfig a2 p2).keys → a1 = a2 ∧ p1 = p2) ∧
    (∀ a1 p1 a2 p2 : String, hyphenFree a1 = true → hyphenFree a2 = true →
      (getActionCountInLastMonthCacheConfig a1 p1).keys =
        (getActionCountInLastMonthCacheConfig a2 p2).keys → a1 = a2 ∧ p1 = p2) ∧
    (∀ a1 p1 a2 p2 : String, hyphenFree a1 = true → hyphenFree a2 = true →
      (getActionCountInLastQuarterCacheConfig a1 p1).keys =
        (getActionCountInLastQuarterCacheConfig a2 p2).keys → a1 = a2 ∧ p1 = p2) ∧
    (∀ a1 p1 a2 p2 : String, hyphenFree a1 = true → hyphenFree a2 = true →
      (getTotalOccurrencesForActionCacheConfig a1 p1).keys =
        (getTotalOccurrencesForActionCacheConfig a2 p2).keys → a1 = a2 ∧ p1 = p2) ∧
    (∀ a1 p1 a2 p2 : String, hyphenFree a1 = true → hyphenFree a2 = true →
      (getLastOccurrenceDaysAgoCacheConfig a1 p1).keys =
        (getLastOccurrenceDaysAgoCacheConfig a2 p2).keys → a1 = a2 ∧ p1 = p2) ∧
    (∀ a1 p1 a2 p2 : String, hyphenFree a1 = true → hyphenFree a2 = true →
      (getFirstOccurrenceDaysAgoCacheConfig a1 p1).keys =
        (getFirstOccurrenceDaysAgoCacheConfig a2 p2).keys → a1 = a2 ∧ p1 = p2) ∧
    (∀ e1 pl1 e2 pl2 : String, hyphenFree pl1 = true → hyphenFree pl2 = true →
      (sendFreeLimitReachedEventToPosthogBiWeeklyCacheConfig e1 pl1).keys =
        (sendFreeLimitReachedEventToPosthogBiWeeklyCacheConfig e2 pl2).keys →
      pl1 = pl2 ∧ e1 = e2) ∧
    (∀ u w, (canUserAccessWebhookCacheConfig u w).tags = [webhookTagById w] ∧
      (canUserAccessWebhookCacheConfig u w).revalidate = SERVICES_REVALIDATION_INTERVAL) ∧
    (∀ u a, (canUserAccessAttributeClassCacheConfig u a).tags = [attributeClassTagById a] ∧
      (canUserAccessAttributeClassCacheConfig u a).revalidate =
        SERVICES_REVALIDATION_INTERVAL) ∧
    (∀ p pg, (getActionsByPersonIdCacheConfig p pg).tags = [actionTagByPersonId p] ∧
      (getActionsByPersonIdCacheConfig p pg).revalidate = SERVICES_REVALIDATION_INTERVAL) ∧
    (∀ e pg, (getActionsByEnvironmentIdCacheConfig e pg).tags = [actionTagByEnvironmentId e] ∧
      (getActionsByEnvironmentIdCacheConfig e pg).revalidate =
        SERVICES_REVALIDATION_INTERVAL) ∧
    (∀ ac, (getActionCountInLastHourCacheConfig ac).tags = [actionClassTagById ac] ∧
      (getActionCountInLastHourCacheConfig ac).revalidate = SERVICES_REVALIDATION_INTERVAL) ∧
    (∀ ac p, (getActionCountInLastWeekCacheConfig ac p).tags = [actionClassTagById ac] ∧
      (getActionCountInLastWeekCacheConfig ac p).revalidate =
        SERVICES_REVALIDATION_INTERVAL) ∧
    (∀ e pl, (sendFreeLimitReachedEventToPosthogBiWeeklyCacheConfig e pl).keys =
        ["sendFreeLimitReachedEventToPosthogBiWeekly-" ++ pl ++ "-" ++ e] ∧
      (sendFreeLimitReachedEventToPosthogBiWeeklyCacheConfig e pl).revalidate =
        60 * 60 * 24 * 15 ∧
      (sendFreeLimitReachedEventToPosthogBiWeeklyCacheConfig e pl).tags = []) := by
  refine ⟨?_, ?_, ?_, ?_, ?_, ?_, ?_, ?_, ?_, ?_, ?_, ?_, ?_, ?_,
    fun u w => ⟨rfl, rfl⟩, fun u a => ⟨rfl, rfl⟩, fun p pg => ⟨rfl, rfl⟩,
    fun e pg => ⟨rfl, rfl⟩, fun ac => ⟨rfl, rfl⟩, fun ac p => ⟨rfl, rfl⟩,
    fun e pl => ⟨rfl, rfl, rfl⟩⟩
  · intro u1 w1 u2 w2 h1 h2 hk
    exact two_arg_key_inj _ u1 w1 u2 w2 h1 h2 hk
  · intro u1 a1 u2 a2 h1 h2 hk
    exact two_arg_key_inj _ u1 a1 u2 a2 h1 h2 hk
  · intro p1 p2 pg1 pg2 h1 h2 hk
    exact two_arg_key_inj _ p1 (pageToString pg1) p2 (pageToString pg2) h1 h2 hk
  · intro e1 e2 pg1 pg2 h1 h2 hk
    exact two_arg_key_inj _ e1 (pageToString pg1) e2 (pageToString pg2) h1 h2 hk
  · intro a1 a2 hk
    exact one_arg_key_inj _ a1 a2 hk
  · intro a1 a2 hk
    exact one_arg_key_inj _ a1 a2 hk
  · intro a1 a2 hk
    exact one_arg_key_inj _ a1 a2 hk
  · intro a1 p1 a2 p2 h1 h2 hk
    exact two_arg_key_inj _ a1 p1 a2 p2 h1 h2 hk
  · intro a1 p1 a2 p2 h1 h2 hk
    exact two_arg_key_inj _ a1 p1 a2 p2 h1 h2 hk
  · intro a1 p1 a2 p2 h1 h2 hk
    exact two_arg_key_inj _ a1 p1 a2 p2 h1 h2 hk
  · intro a1 p1 a2 p2 h1 h2 hk
    exact two_arg_key_inj _ a1 p1 a2 p2 h1 h2 hk
  · intro a1 p1 a2 p2 h1 h2 hk
    exact two_arg_key_inj _ a1 p1 a2 p2 h1 h2 hk
  · intro a1 p1 a2 p2 h1 h2 hk
    exact two_arg_key_inj _ a1 p1 a2 p2 h1 h2 hk
  · intro e1 pl1 e2 pl2 h1 h2 hk
    exact two_arg_key_inj _ pl1 e1 pl2 e2 h1 h2 hk

/-- Witness for the amended C6: concrete hyphen-free arguments on which the
webhook key injectivity applies. -/
theorem claim_C6_amended_witness :
    hyphenFree "u1" = true ∧ hyphenFree "u1" = true ∧
    (canUserAccessWebhookCacheConfig "u1" "wh1").keys =
      (canUserAccessWebhookCacheConfig "u1" "wh1").keys ∧
    ("u1" = "u1" ∧ "wh1" = "wh1") :=
  ⟨by decide, by decide, rfl,
   claim_C6_amended.1 "u1" "wh1" "u1" "wh1" (by decide) (by decide) rfl⟩

end Formbricks
